import Mathlib

/-!
Verification of the Structurizr DSL error-processing core
(`processDslError`, `getSuggestionForError`, and the log tools) against its
specification.  The JavaScript source is embedded shallowly: strings become
`String`/`List Char`, the single regex
`/workspace\.dsl: (.*?) at line (\d+) of ([^:]+):(.*)/` becomes an explicit
leftmost-match search with the same backtracking semantics, and the
file-backed diagnostic log becomes an explicit `LogFile` state.
-/

namespace StructurizrDsl

/-! ## Basic string machinery (models of JS string primitives) -/

/-- Model of the JS line-terminator set that the regex metacharacter `.`
excludes: LF, CR, U+2028, U+2029. -/
def isLineTerm (c : Char) : Bool :=
  c = '\n' || c = '\r' || c = Char.ofNat 0x2028 || c = Char.ofNat 0x2029

/-- Model of the ECMAScript whitespace set removed by `String.prototype.trim`. -/
def isJsWhitespace (c : Char) : Bool :=
  c = '\t' || c = '\n' || c.toNat = 0x0b || c.toNat = 0x0c || c = '\r' || c = ' ' ||
  c.toNat = 0xa0 || c.toNat = 0x1680 ||
  (0x2000 ≤ c.toNat && c.toNat ≤ 0x200a) ||
  c.toNat = 0x2028 || c.toNat = 0x2029 || c.toNat = 0x202f || c.toNat = 0x205f ||
  c.toNat = 0x3000 || c.toNat = 0xfeff

/-- Model of `String.prototype.trim` on character lists. -/
def jsTrim (l : List Char) : List Char :=
  ((l.dropWhile isJsWhitespace).reverse.dropWhile isJsWhitespace).reverse

/-- `jsTrimS s` is the JS `s.trim()`. -/
def jsTrimS (s : String) : String := ⟨jsTrim s.data⟩

/-- Does `pat` occur as a contiguous run in `l`?  Model of
`String.prototype.includes` on character lists. -/
def listIncludes (pat : List Char) : List Char → Bool
  | [] => pat.isEmpty
  | c :: cs => pat.isPrefixOf (c :: cs) || listIncludes pat cs

/-- Model of the JS `s.includes(pat)`. -/
def jsIncludes (s pat : String) : Bool := listIncludes pat.data s.data

/-- Model of JS `parseInt(digits, 10)` on a string of decimal digits. -/
def digitsToNat (l : List Char) : Nat :=
  l.foldl (fun n c => 10 * n + (c.toNat - 48)) 0

/-- The character class `\d` of the regex: exactly the ASCII digits. -/
def isDigitChar (c : Char) : Bool :=
  48 ≤ c.toNat && c.toNat ≤ 57

/-! ## Suggestion matcher (`getSuggestionForError`) -/

/-- An `\x7bissue, fix\x7d` pair, the result of the suggestion matcher. -/
structure Suggestion where
  issue : String
  fix : String
deriving DecidableEq, Repr

/-- The fixed pair returned for a bad dynamic-view declaration. -/
def dynamicSuggestion : Suggestion :=
  { issue := "The dynamic view syntax is incorrect. It needs a container/component identifier AND key."
    fix := "Correct syntax: \x27dynamic ContainerName ErrorHandlingFlow \x7b\x27\nAlternatively: \x27dynamic ComponentName ErrorHandlingFlow \x7b\x27" }

/-- The fixed pair returned for a relationship error. -/
def relationshipSuggestion : Suggestion :=
  { issue := "There\x27s a relationship defined between components that doesn\x27t exist or has incorrect syntax"
    fix := "Check the relationship syntax and ensure both components exist: \x27<source> -> <destination> \"description\"\x27" }

/-- The generic fallback pair. -/
def genericSuggestion : Suggestion :=
  { issue := "Syntax error in the DSL file"
    fix := "Check the documentation at https://structurizr.com/dsl for correct syntax" }

/-- Embedding of `getSuggestionForError(message, context)` from the source:
two cascaded substring tests, then the generic fallback. -/
def getSuggestionForError (message context : String) : Suggestion :=
  if jsIncludes message "Unexpected tokens" && jsIncludes context "dynamic" then
    dynamicSuggestion
  else if jsIncludes message "Unknown relationship" || jsIncludes message "relationship" then
    relationshipSuggestion
  else
    genericSuggestion

/-! ## The regex matcher

The source applies
`errorText.match(/workspace\.dsl: (.*?) at line (\d+) of ([^:]+):(.*)/)`.
JS semantics: leftmost start position wins; at a fixed start the lazy group
`(.*?)` grows one (non-line-terminator) character at a time; `(\d+)` and
`([^:]+)` are greedy, and because a shorter `\d+` run is necessarily followed
by a digit (never by the literal space of ` of `) and a shorter `[^:]+` run is
necessarily followed by a non-colon, their backtracking never produces another
split, so each is a plain takeWhile with a follow-check; `(.*)` greedily takes
the rest of the line. -/

/-- Capture groups of a successful match: message, digits, file path, context. -/
structure MatchGroups where
  g1 : List Char
  g2 : List Char
  g3 : List Char
  g4 : List Char
deriving DecidableEq, Repr

/-- Strip an exact literal prefix, returning the rest; `none` when `l` does
not start with `p`. -/
def dropLit : List Char → List Char → Option (List Char)
  | [], l => some l
  | _ :: _, [] => none
  | p :: ps, c :: cs => if p = c then dropLit ps cs else none

/-- Match the tail ` at line (\d+) of ([^:]+):(.*)` at the start of `l`,
returning the three captures. -/
def matchTail (l : List Char) : Option (List Char × List Char × List Char) :=
  match dropLit " at line ".data l with
  | none => none
  | some l1 =>
    if (l1.takeWhile isDigitChar).isEmpty then none
    else
      match dropLit " of ".data (l1.dropWhile isDigitChar) with
      | none => none
      | some l3 =>
        if (l3.takeWhile (fun c => c ≠ ':')).isEmpty then none
        else
          match l3.dropWhile (fun c => c ≠ ':') with
          | [] => none
          | c :: rest =>
            if c = ':' then
              some (l1.takeWhile isDigitChar, l3.takeWhile (fun c => c ≠ ':'),
                rest.takeWhile (fun c => !isLineTerm c))
            else none

/-- The lazy group `(.*?)` at a fixed start: `acc` holds (reversed) the
characters consumed so far; at each position first try the tail, otherwise
consume one more non-line-terminator character. -/
def matchAfterLit (acc : List Char) : List Char → Option MatchGroups
  | [] => none
  | c :: cs =>
    match matchTail (c :: cs) with
    | some (ds, fp, cx) => some ⟨acc.reverse, ds, fp, cx⟩
    | none => if isLineTerm c then none else matchAfterLit (c :: acc) cs

/-- Leftmost-match search for the whole pattern: at each start position try
the literal `workspace.dsl: ` followed by the rest of the pattern, else slide
one character right.  (The empty string never matches: the literal is
nonempty; likewise the lazy-group loop needs at least the tail literal.) -/
def regexSearch : List Char → Option MatchGroups
  | [] => none
  | c :: cs =>
    match dropLit "workspace.dsl: ".data (c :: cs) with
    | some rest =>
      match matchAfterLit [] rest with
      | some g => some g
      | none => regexSearch cs
    | none => regexSearch cs

/-! ## Diagnostics and the file-backed log -/

/-- The structured record `processDslError` returns on success
(the `dslError` object of the source). -/
structure Diagnostic where
  timestamp : String
  type : String
  message : String
  filename : String
  line : Nat
  column : Nat
  context : String
  suggestion : Suggestion
deriving DecidableEq, Repr

/-- One element of the `relatedInformation` array of a stored entry. -/
structure RelatedInfo where
  message : String
  file : String
  line : Nat
  column : Nat
deriving DecidableEq, Repr

/-- The VS-Code-diagnostic-shaped object pushed onto the JSON log file. -/
structure LogEntry where
  source : String
  severity : String
  message : String
  file : String
  line : Nat
  column : Nat
  code : String
  relatedInformation : List RelatedInfo
  suggestion : Suggestion
  timestamp : String
deriving DecidableEq, Repr

/-- State of the JSON log file: absent, present but unreadable or not valid
JSON, or a well-formed array of entries. -/
inductive LogFile where
  | missing
  | corrupt
  | good (entries : List LogEntry)
deriving DecidableEq, Repr

/-- The read path of the append in `processDslError`: a missing file yields
the empty array; a corrupt file is caught, logged via `console.error`
(the returned flag), and treated as empty. -/
def readLogForAppend : LogFile → List LogEntry × Bool
  | .missing => ([], false)
  | .corrupt => ([], true)
  | .good l => (l, false)

/-- Build the `dslError` record from the four captures, exactly as in the
source: message, file and context trimmed, `parseInt(line, 10)`, column 1,
suggestion computed from the trimmed message and context, timestamp `now`. -/
def mkDiagnostic (now : String) (g : MatchGroups) : Diagnostic :=
  { timestamp := now
    type := "DSL"
    message := ⟨jsTrim g.g1⟩
    filename := ⟨jsTrim g.g3⟩
    line := digitsToNat g.g2
    column := 1
    context := ⟨jsTrim g.g4⟩
    suggestion := getSuggestionForError ⟨jsTrim g.g1⟩ ⟨jsTrim g.g4⟩ }

/-- The object pushed onto the log array for a parsed diagnostic. -/
def mkLogEntry (d : Diagnostic) : LogEntry :=
  { source := "Structurizr DSL"
    severity := "Error"
    message := d.message
    file := d.filename
    line := d.line
    column := d.column
    code := "dsl-syntax"
    relatedInformation := [{ message := "Context: " ++ d.context
                             file := d.filename
                             line := d.line
                             column := d.column }]
    suggestion := d.suggestion
    timestamp := d.timestamp }

/-- Embedding of `processDslError(errorText)` as a state transformer over the
log file.  Returns the diagnostic (or `none` on parse failure), the new file
state, and whether a read-failure warning was emitted.  On a failed match
nothing is written; on a match the whole array (previous readable entries plus
the new one) is written back. -/
def processDslError (now : String) (errorText : String) (st : LogFile) :
    Option Diagnostic × LogFile × Bool :=
  match regexSearch errorText.data with
  | some g =>
    let d := mkDiagnostic now g
    let (prev, warned) := readLogForAppend st
    (some d, .good (prev ++ [mkLogEntry d]), warned)
  | none => (none, st, false)

/-! ## The retrieval, clear and fix tools -/

/-- `errors.slice(-count)` for `count ≥ 1`: the last `count` elements in
insertion order. -/
def recent (count : Nat) (log : List LogEntry) : List LogEntry :=
  log.drop (log.length - count)

/-- The `getDslErrors` tool: reads the log file and returns the last `count`
entries; a missing or corrupt file makes `readFileSync`/`JSON.parse` throw,
which the tool reports as a failure (`none`). -/
def getDslErrors (count : Nat) : LogFile → Option (List LogEntry)
  | .good l => some (recent count l)
  | _ => none

/-- The `clearDslErrors` tool: writes the literal `[]` over the log file. -/
def clearDslErrors : LogFile → LogFile := fun _ => .good []

/-- The `fixDslError` tool: a pure advisory.  It is given the log-file state
and the `workspace.dsl` contents only to express that it touches neither. -/
def fixDslError (line : Nat) (fix : String) (st : LogFile) (workspace : String) :
    String × LogFile × String :=
  ("Suggested fix for line " ++ toString line ++ ": " ++ fix ++
     "\n\nNote: This is a suggestion only. To apply the fix, you should edit the workspace.dsl file manually.",
   st, workspace)

/-! ## Helper lemmas -/

/-- `listIncludes` decides list containment (`List.IsInfix`). -/
theorem listIncludes_iff_occurs (pat l : List Char) :
    listIncludes pat l = true ↔ pat <:+: l := by
  induction l with
  | nil =>
    simp [listIncludes, List.isEmpty_iff, List.infix_nil]
  | cons c cs ih =>
    simp [listIncludes, List.infix_cons_iff, List.isPrefixOf_iff_prefix, ih]

/-- A successful `dropLit` is exactly a prefix split. -/
theorem dropLit_eq (p l r : List Char) (h : dropLit p l = some r) : l = p ++ r := by
  induction p generalizing l with
  | nil => simpa [dropLit] using h
  | cons x xs ih =>
    cases l with
    | nil => simp [dropLit] at h
    | cons c cs =>
      simp only [dropLit] at h
      split at h
      · next heq => simpa [heq] using ih cs h
      · exact absurd h (by simp)

/-- Trimming only removes characters. -/
theorem mem_of_mem_jsTrim {c : Char} {l : List Char} (h : c ∈ jsTrim l) : c ∈ l := by
  unfold jsTrim at h
  rw [List.mem_reverse] at h
  have h1 := (List.dropWhile_sublist (l := (l.dropWhile isJsWhitespace).reverse)
    (p := isJsWhitespace)).subset h
  rw [List.mem_reverse] at h1
  exact (List.dropWhile_sublist (l := l) (p := isJsWhitespace)).subset h1

/-- Folding decimal digits from a positive accumulator stays positive. -/
theorem digits_foldl_pos (l : List Char) (n : Nat) (hn : 0 < n) :
    0 < l.foldl (fun n c => 10 * n + (c.toNat - 48)) n := by
  induction l generalizing n with
  | nil => simpa using hn
  | cons c cs ih =>
    simp only [List.foldl_cons]
    exact ih _ (by omega)

/-- Characters are determined by their code points. -/
theorem char_toNat_inj {a b : Char} (h : a.toNat = b.toNat) : a = b :=
  Char.ext (UInt32.ext h)

/-- The decimal value of a digit string with some non-`0` digit is positive. -/
theorem digitsToNat_pos (l : List Char) (hd : ∀ c ∈ l, isDigitChar c = true)
    (h : ∃ c ∈ l, c ≠ '0') : 0 < digitsToNat l := by
  unfold digitsToNat
  obtain ⟨c, hc, hc0⟩ := h
  induction l with
  | nil => simp at hc
  | cons x xs ih =>
    simp only [List.foldl_cons]
    rcases List.mem_cons.mp hc with rfl | hmem
    · have hx : 48 ≤ c.toNat ∧ c.toNat ≤ 57 := by
        simpa [isDigitChar] using hd c (by simp)
      have hne : c.toNat ≠ 48 := by
        intro habs
        exact hc0 (char_toNat_inj (by rw [habs]; decide))
      exact digits_foldl_pos xs _ (by omega)
    · by_cases hx0 : x = '0'
      · subst hx0
        exact ih (fun d hdm => hd d (by simp [hdm])) hmem
      · have hx : 48 ≤ x.toNat ∧ x.toNat ≤ 57 := by
          simpa [isDigitChar] using hd x (by simp)
        have hne : x.toNat ≠ 48 := by
          intro habs
          exact hx0 (char_toNat_inj (by rw [habs]; decide))
        exact digits_foldl_pos xs _ (by omega)

/-- Characterization of a successful tail match: the tail literal is a prefix
of the input, the digit capture is a nonempty run of digits, and the file
capture is a nonempty colon-free run. -/
theorem matchTail_eq_some {l ds fp cx : List Char}
    (h : matchTail l = some (ds, fp, cx)) :
    " at line ".data <+: l ∧ ds ≠ [] ∧ (∀ c ∈ ds, isDigitChar c = true) ∧
      fp ≠ [] ∧ ':' ∉ fp := by
  unfold matchTail at h
  split at h
  · exact absurd h (by simp)
  next l1 heq1 =>
    split at h
    · exact absurd h (by simp)
    next hds =>
      split at h
      · exact absurd h (by simp)
      next l3 heq2 =>
        split at h
        · exact absurd h (by simp)
        next hfp =>
          split at h
          · exact absurd h (by simp)
          next c rest heq3 =>
            split at h
            · next hcol =>
              obtain ⟨rfl, rfl, rfl⟩ : l1.takeWhile isDigitChar = ds ∧
                  l3.takeWhile (fun c => c ≠ ':') = fp ∧
                  rest.takeWhile (fun c => !isLineTerm c) = cx := by
                simpa using h
              refine ⟨⟨l1, (dropLit_eq _ _ _ heq1).symm⟩, ?_, ?_, ?_, ?_⟩
              · simpa [List.isEmpty_iff] using hds
              · exact fun c hc => List.mem_takeWhile_imp hc
              · simpa [List.isEmpty_iff] using hfp
              · intro hc
                have := List.mem_takeWhile_imp hc
                simp at this
            · exact absurd h (by simp)

/-- Characterization of the lazy-group loop: a successful result splits the
input into the lazily consumed characters (appended to the accumulator as the
message group) and a suffix where the tail pattern matches. -/
theorem matchAfterLit_eq_some {l : List Char} {g : MatchGroups} :
    ∀ {acc : List Char}, matchAfterLit acc l = some g →
      ∃ pre suf, l = pre ++ suf ∧ g.g1 = acc.reverse ++ pre ∧
        matchTail suf = some (g.g2, g.g3, g.g4) := by
  induction l with
  | nil => intro acc h; simp [matchAfterLit] at h
  | cons c cs ih =>
    intro acc h
    unfold matchAfterLit at h
    split at h
    next ds fp cx heq =>
      obtain rfl : MatchGroups.mk acc.reverse ds fp cx = g := by simpa using h
      exact ⟨[], c :: cs, by simp, by simp, heq⟩
    next heq =>
      split at h
      · exact absurd h (by simp)
      · obtain ⟨pre, suf, h1, h2, h3⟩ := ih h
        exact ⟨c :: pre, suf, by simp [h1], by simpa using h2, h3⟩

/-- Characterization of the leftmost-match search: success means the input
splits into a skipped prefix, the literal `workspace.dsl: `, and a rest on
which the lazy-group loop succeeds. -/
theorem regexSearch_eq_some {l : List Char} {g : MatchGroups}
    (h : regexSearch l = some g) :
    ∃ pre rest, l = pre ++ "workspace.dsl: ".data ++ rest ∧
      matchAfterLit [] rest = some g := by
  induction l with
  | nil => simp [regexSearch] at h
  | cons c cs ih =>
    unfold regexSearch at h
    split at h
    next rest heq =>
      split at h
      next g' heq2 =>
        obtain rfl : g' = g := by simpa using h
        exact ⟨[], rest, by simpa using dropLit_eq _ _ _ heq, heq2⟩
      next =>
        obtain ⟨pre, rest', h1, h2⟩ := ih h
        exact ⟨c :: pre, rest', by simp [h1], h2⟩
    next =>
      obtain ⟨pre, rest', h1, h2⟩ := ih h
      exact ⟨c :: pre, rest', by simp [h1], h2⟩

/-- Group invariants carried by any successful search: nonempty all-digit
line capture, nonempty colon-free file capture. -/
theorem regexSearch_groups {l : List Char} {g : MatchGroups}
    (h : regexSearch l = some g) :
    g.g2 ≠ [] ∧ (∀ c ∈ g.g2, isDigitChar c = true) ∧ g.g3 ≠ [] ∧ ':' ∉ g.g3 := by
  obtain ⟨pre, rest, -, h2⟩ := regexSearch_eq_some h
  obtain ⟨-, suf, -, -, h3⟩ := matchAfterLit_eq_some h2
  obtain ⟨-, hds, hdig, hfp, hcol⟩ := matchTail_eq_some h3
  exact ⟨hds, hdig, hfp, hcol⟩

/-- A successful search implies the two telltale literals occur in the input. -/
theorem regexSearch_includes {l : List Char} {g : MatchGroups}
    (h : regexSearch l = some g) :
    "workspace.dsl:".data <:+: l ∧ "at line".data <:+: l := by
  obtain ⟨pre, rest, h1, h2⟩ := regexSearch_eq_some h
  obtain ⟨pre2, suf, h3, -, h4⟩ := matchAfterLit_eq_some h2
  obtain ⟨⟨tl, h5⟩, -, -, -, -⟩ := matchTail_eq_some h4
  constructor
  · have hws : "workspace.dsl:".data <+: "workspace.dsl: ".data := ⟨[' '], by decide⟩
    exact hws.isInfix.trans ⟨pre, rest, by simp [h1]⟩
  · have hal : "at line".data <:+: " at line ".data := ⟨[' '], [' '], by decide⟩
    refine hal.trans ?_
    exact ⟨pre ++ "workspace.dsl: ".data ++ pre2, tl, by simp [h1, h3, ← h5]⟩

/-! ## Claim theorems -/

/-- C4: `getSuggestionForError` is total and closed over three outcomes: for
every `(message, context)` pair (empty strings included) it returns exactly
one of the three fixed suggestion pairs; being a pure total Lean function it
never throws and has no side effects. -/
theorem getSuggestionForError_total (message context : String) :
    getSuggestionForError message context = dynamicSuggestion ∨
    getSuggestionForError message context = relationshipSuggestion ∨
    getSuggestionForError message context = genericSuggestion := by
  unfold getSuggestionForError
  split
  · exact Or.inl rfl
  · split
    · exact Or.inr (Or.inl rfl)
    · exact Or.inr (Or.inr rfl)

/-- C3, counterexample: the claim says a `context` containing `relationship`
(with rule 1 not applying) yields the relationship pair, but the source tests
only the message, so `("", "relationship")` falls through to the generic
fallback. -/
theorem getSuggestionForError_contextOnly_cex :
    getSuggestionForError "" "relationship" = genericSuggestion ∧
    genericSuggestion ≠ relationshipSuggestion := by
  exact ⟨rfl, by decide⟩

/-- C3 (amended): when rule 1 does not apply, a `message` containing
`Unknown relationship` or containing `relationship` yields the fixed
relationship-syntax pair; the context is not consulted by this rule. -/
theorem getSuggestionForError_relationshipRule (message context : String)
    (h1 : ¬(jsIncludes message "Unexpected tokens" = true ∧
            jsIncludes context "dynamic" = true))
    (h2 : jsIncludes message "Unknown relationship" = true ∨
          jsIncludes message "relationship" = true) :
    getSuggestionForError message context = relationshipSuggestion := by
  unfold getSuggestionForError
  rw [if_neg (by simpa [Bool.and_eq_true] using h1),
    if_pos (by simpa [Bool.or_eq_true] using h2)]

/-- Witness for C3's amended theorem at a concrete input. -/
theorem getSuggestionForError_relationshipRule_witness :
    ¬(jsIncludes "Unknown relationship found" "Unexpected tokens" = true ∧
      jsIncludes "" "dynamic" = true) ∧
    getSuggestionForError "Unknown relationship found" "" = relationshipSuggestion :=
  ⟨by decide, getSuggestionForError_relationshipRule "Unknown relationship found" ""
    (by decide) (Or.inl (by decide))⟩

/-- C2: an input lacking the literal `workspace.dsl:` or lacking `at line`
never matches the pattern, so `processDslError` returns the failure value,
produces no diagnostic, and leaves the log file state untouched. -/
theorem processDslError_nonMatching (now s : String) (st : LogFile)
    (h : jsIncludes s "workspace.dsl:" = false ∨ jsIncludes s "at line" = false) :
    processDslError now s st = (none, st, false) := by
  cases hm : regexSearch s.data with
  | none => simp [processDslError, hm]
  | some g =>
    exfalso
    obtain ⟨h1, h2⟩ := regexSearch_includes hm
    rcases h with h | h
    · rw [show jsIncludes s "workspace.dsl:" = true from
        (listIncludes_iff_occurs _ _).mpr h1] at h
      simp at h
    · rw [show jsIncludes s "at line" = true from
        (listIncludes_iff_occurs _ _).mpr h2] at h
      simp at h

/-- Witness for C2 at the spec's scenario 3 input. -/
theorem processDslError_nonMatching_witness :
    jsIncludes "some random non-matching text" "workspace.dsl:" = false ∧
    processDslError "2025-01-01T00:00:00.000Z" "some random non-matching text"
        LogFile.missing = (none, LogFile.missing, false) :=
  ⟨by decide, processDslError_nonMatching "2025-01-01T00:00:00.000Z"
    "some random non-matching text" LogFile.missing (Or.inl (by decide))⟩

/-- C1, counterexample: on `workspace.dsl: m at line 0 of f:c` the pattern
matches with digit capture `0`, extraction succeeds, and the resulting line is
`0` — not a positive integer as the claim states. -/
theorem processDslError_lineZero_cex :
    Option.map Diagnostic.line
      (processDslError "2025-01-01T00:00:00.000Z" "workspace.dsl: m at line 0 of f:c"
        LogFile.missing).1 = some 0 := by
  decide

/-- C1 (amended): whenever the four-group pattern matches, extraction
succeeds; message, file and context are the captured texts independently
trimmed, the line is the base-10 value of the captured digit string (the
capture is a nonempty run of digits, and the value is positive whenever those
digits are not all `0`), and the column is the constant 1. -/
theorem processDslError_extract (now s : String) (st : LogFile) (g : MatchGroups)
    (h : regexSearch s.data = some g) :
    (processDslError now s st).1 = some
      { timestamp := now, type := "DSL", message := ⟨jsTrim g.g1⟩,
        filename := ⟨jsTrim g.g3⟩, line := digitsToNat g.g2, column := 1,
        context := ⟨jsTrim g.g4⟩,
        suggestion := getSuggestionForError ⟨jsTrim g.g1⟩ ⟨jsTrim g.g4⟩ } ∧
    g.g2 ≠ [] ∧ (∀ c ∈ g.g2, isDigitChar c = true) ∧
    ((∃ c ∈ g.g2, c ≠ '0') → 0 < digitsToNat g.g2) := by
  obtain ⟨hne, hdig, -, -⟩ := regexSearch_groups h
  refine ⟨?_, hne, hdig, fun hx => digitsToNat_pos _ hdig hx⟩
  simp [processDslError, h, mkDiagnostic]

/-- Witness for C1's amended theorem at a concrete matching input. -/
theorem processDslError_extract_witness :
    regexSearch "workspace.dsl: m at line 12 of f:c".data =
      some ⟨"m".data, "12".data, "f".data, "c".data⟩ ∧
    ((processDslError "T" "workspace.dsl: m at line 12 of f:c" LogFile.missing).1 = some
      { timestamp := "T", type := "DSL", message := ⟨jsTrim "m".data⟩,
        filename := ⟨jsTrim "f".data⟩, line := digitsToNat "12".data, column := 1,
        context := ⟨jsTrim "c".data⟩,
        suggestion := getSuggestionForError ⟨jsTrim "m".data⟩ ⟨jsTrim "c".data⟩ } ∧
    "12".data ≠ [] ∧ (∀ c ∈ "12".data, isDigitChar c = true) ∧
    ((∃ c ∈ "12".data, c ≠ '0') → 0 < digitsToNat "12".data)) :=
  ⟨by decide, processDslError_extract "T" "workspace.dsl: m at line 12 of f:c"
    LogFile.missing ⟨"m".data, "12".data, "f".data, "c".data⟩ (by decide)⟩

/-- C5: the spec's end-to-end scenario 1.  On the documented `Unexpected
tokens … dynamic` error line, extraction succeeds with line 776 and the full
file path, the message starts with `Unexpected tokens`, and the attached
suggestion's issue mentions the dynamic-view problem. -/
theorem endToEndScenario1 :
    Option.map Diagnostic.line
      (processDslError "T" "workspace.dsl: Unexpected tokens (expected: include, exclude, autolayout, default, animation, title, description, properties) at line 776 of /usr/local/structurizr/workspace.dsl: dynamic \"ErrorHandlingFlow\" \x7b"
        LogFile.missing).1 = some 776 ∧
    Option.map Diagnostic.filename
      (processDslError "T" "workspace.dsl: Unexpected tokens (expected: include, exclude, autolayout, default, animation, title, description, properties) at line 776 of /usr/local/structurizr/workspace.dsl: dynamic \"ErrorHandlingFlow\" \x7b"
        LogFile.missing).1 = some "/usr/local/structurizr/workspace.dsl" ∧
    Option.map (fun d => "Unexpected tokens".data.isPrefixOf d.message.data)
      (processDslError "T" "workspace.dsl: Unexpected tokens (expected: include, exclude, autolayout, default, animation, title, description, properties) at line 776 of /usr/local/structurizr/workspace.dsl: dynamic \"ErrorHandlingFlow\" \x7b"
        LogFile.missing).1 = some true ∧
    Option.map (fun d => jsIncludes d.suggestion.issue "dynamic view syntax is incorrect")
      (processDslError "T" "workspace.dsl: Unexpected tokens (expected: include, exclude, autolayout, default, animation, title, description, properties) at line 776 of /usr/local/structurizr/workspace.dsl: dynamic \"ErrorHandlingFlow\" \x7b"
        LogFile.missing).1 = some true := by
  refine ⟨by decide, by decide, by decide, by decide⟩

/-- C7: when the stored log is unreadable (or the file is missing), a
successful `processDslError` still proceeds, writing a log that holds exactly
the one newly appended entry; for the corrupt case the read anomaly is
surfaced as a `console.error` warning (the `true` flag) rather than a
failure. -/
theorem processDslError_corruptStorage (now s : String) (g : MatchGroups)
    (h : regexSearch s.data = some g) :
    processDslError now s LogFile.corrupt =
      (some (mkDiagnostic now g), LogFile.good [mkLogEntry (mkDiagnostic now g)], true) ∧
    processDslError now s LogFile.missing =
      (some (mkDiagnostic now g), LogFile.good [mkLogEntry (mkDiagnostic now g)], false) := by
  constructor <;> simp [processDslError, h, readLogForAppend]

/-- Witness for C7 at a concrete matching input over corrupt storage. -/
theorem processDslError_corruptStorage_witness :
    regexSearch "workspace.dsl: m at line 1 of f:c".data =
      some ⟨"m".data, "1".data, "f".data, "c".data⟩ ∧
    processDslError "T" "workspace.dsl: m at line 1 of f:c" LogFile.corrupt =
      (some (mkDiagnostic "T" ⟨"m".data, "1".data, "f".data, "c".data⟩),
       LogFile.good [mkLogEntry (mkDiagnostic "T" ⟨"m".data, "1".data, "f".data, "c".data⟩)],
       true) ∧
    processDslError "T" "workspace.dsl: m at line 1 of f:c" LogFile.missing =
      (some (mkDiagnostic "T" ⟨"m".data, "1".data, "f".data, "c".data⟩),
       LogFile.good [mkLogEntry (mkDiagnostic "T" ⟨"m".data, "1".data, "f".data, "c".data⟩)],
       false) :=
  ⟨by decide, processDslError_corruptStorage "T" "workspace.dsl: m at line 1 of f:c"
    ⟨"m".data, "1".data, "f".data, "c".data⟩ (by decide)⟩

/-- C6: for `1 ≤ count ≤ 100`, the `getDslErrors` tool returns
`recent count` of the stored log; `recent` never returns more than `count`
elements and returns the whole log (in insertion order) when `count` is at
least the log's length; and after appending three entries to an empty log,
`recent 2` is exactly the last two in append order. -/
theorem getDslErrors_recent (count : Nat) (log : List LogEntry)
    (d1 d2 d3 : LogEntry) (h1 : 1 ≤ count) (h2 : count ≤ 100) :
    getDslErrors count (LogFile.good log) = some (recent count log) ∧
    (recent count log).length ≤ count ∧
    (log.length ≤ count → recent count log = log) ∧
    recent 2 ((([] ++ [d1]) ++ [d2]) ++ [d3]) = [d2, d3] := by
  refine ⟨rfl, ?_, ?_, ?_⟩
  · simp only [recent, List.length_drop]
    omega
  · intro hle
    simp [recent, Nat.sub_eq_zero_of_le hle]
  · simp [recent]

/-- Witness for C6 at `count = 2` over the empty log and three concrete
entries. -/
theorem getDslErrors_recent_witness :
    1 ≤ 2 ∧ (2 : Nat) ≤ 100 ∧
    (getDslErrors 2 (LogFile.good []) = some (recent 2 []) ∧
     (recent 2 ([] : List LogEntry)).length ≤ 2 ∧
     (([] : List LogEntry).length ≤ 2 → recent 2 ([] : List LogEntry) = []) ∧
     recent 2 ((([] ++ [mkLogEntry (mkDiagnostic "A" ⟨[], [], [], []⟩)]) ++
         [mkLogEntry (mkDiagnostic "B" ⟨[], [], [], []⟩)]) ++
         [mkLogEntry (mkDiagnostic "C" ⟨[], [], [], []⟩)]) =
       [mkLogEntry (mkDiagnostic "B" ⟨[], [], [], []⟩),
        mkLogEntry (mkDiagnostic "C" ⟨[], [], [], []⟩)]) :=
  ⟨by decide, by decide,
    getDslErrors_recent 2 [] (mkLogEntry (mkDiagnostic "A" ⟨[], [], [], []⟩))
      (mkLogEntry (mkDiagnostic "B" ⟨[], [], [], []⟩))
      (mkLogEntry (mkDiagnostic "C" ⟨[], [], [], []⟩)) (by decide) (by decide)⟩

/-- C8: `clearDslErrors` overwrites the log file with the empty array from
any prior state, and doing it twice in a row changes nothing further — the
log is empty after each call. -/
theorem clearDslErrors_idempotent (st : LogFile) :
    clearDslErrors st = LogFile.good [] ∧
    clearDslErrors (clearDslErrors st) = LogFile.good [] ∧
    clearDslErrors (clearDslErrors st) = clearDslErrors st :=
  ⟨rfl, rfl, rfl⟩

/-- C9: for any `line ≥ 1` and fix text, the `fixDslError` tool returns
advisory text that echoes both the line number and the fix, and neither the
diagnostic log state nor the `workspace.dsl` contents change. -/
theorem fixDslError_advisory (line : Nat) (fix : String) (st : LogFile)
    (ws : String) (h : 1 ≤ line) :
    jsIncludes (fixDslError line fix st ws).1 (toString line) = true ∧
    jsIncludes (fixDslError line fix st ws).1 fix = true ∧
    (fixDslError line fix st ws).2.1 = st ∧
    (fixDslError line fix st ws).2.2 = ws := by
  refine ⟨?_, ?_, rfl, rfl⟩
  · refine (listIncludes_iff_occurs _ _).mpr ?_
    exact ⟨"Suggested fix for line ".data,
      (": " ++ fix ++ "\n\nNote: This is a suggestion only. To apply the fix, you should edit the workspace.dsl file manually.").data,
      by simp [fixDslError, String.data_append, List.append_assoc]⟩
  · refine (listIncludes_iff_occurs _ _).mpr ?_
    exact ⟨("Suggested fix for line " ++ toString line ++ ": ").data,
      "\n\nNote: This is a suggestion only. To apply the fix, you should edit the workspace.dsl file manually.".data,
      by simp [fixDslError, String.data_append, List.append_assoc]⟩

/-- Witness for C9 at a concrete line and fix. -/
theorem fixDslError_advisory_witness :
    1 ≤ 3 ∧
    (jsIncludes (fixDslError 3 "use a -> b" LogFile.missing "model \x7b\x7d").1
        (toString 3) = true ∧
     jsIncludes (fixDslError 3 "use a -> b" LogFile.missing "model \x7b\x7d").1
        "use a -> b" = true ∧
     (fixDslError 3 "use a -> b" LogFile.missing "model \x7b\x7d").2.1 = LogFile.missing ∧
     (fixDslError 3 "use a -> b" LogFile.missing "model \x7b\x7d").2.2 = "model \x7b\x7d") :=
  ⟨by decide, fixDslError_advisory 3 "use a -> b" LogFile.missing "model \x7b\x7d" (by decide)⟩

/-- C10 (implicit): the file capture comes from `[^:]+`, so a successfully
extracted diagnostic's file never contains a colon; on an error text whose
reported path itself contains a colon, the extracted file is only the part of
the path before its first colon, never the full path. -/
theorem extractedFile_noColon (now s : String) (st : LogFile) (g : MatchGroups)
    (h : regexSearch s.data = some g) :
    ':' ∉ g.g3 ∧
    (∀ d, (processDslError now s st).1 = some d → ':' ∉ d.filename.data) ∧
    Option.map Diagnostic.filename
      (processDslError "T" "workspace.dsl: msg at line 5 of C:\\Users\\x\\ws.dsl: dynamic \x7b"
        LogFile.missing).1 = some "C" := by
  obtain ⟨-, -, -, hcol⟩ := regexSearch_groups h
  refine ⟨hcol, ?_, by decide⟩
  intro d hd
  have hres : (processDslError now s st).1 = some (mkDiagnostic now g) := by
    simp [processDslError, h]
  rw [hres] at hd
  obtain rfl : mkDiagnostic now g = d := by simpa using hd
  intro hc
  exact hcol (mem_of_mem_jsTrim (by simpa [mkDiagnostic] using hc))

/-- Witness for C10 at the colon-path input. -/
theorem extractedFile_noColon_witness :
    regexSearch "workspace.dsl: msg at line 5 of C:\\Users\\x\\ws.dsl: dynamic \x7b".data =
      some ⟨"msg".data, "5".data, "C".data, "\\Users\\x\\ws.dsl: dynamic \x7b".data⟩ ∧
    (':' ∉ "C".data ∧
     (∀ d, (processDslError "T" "workspace.dsl: msg at line 5 of C:\\Users\\x\\ws.dsl: dynamic \x7b"
         LogFile.missing).1 = some d → ':' ∉ d.filename.data) ∧
     Option.map Diagnostic.filename
       (processDslError "T" "workspace.dsl: msg at line 5 of C:\\Users\\x\\ws.dsl: dynamic \x7b"
         LogFile.missing).1 = some "C") :=
  ⟨by decide, extractedFile_noColon "T"
    "workspace.dsl: msg at line 5 of C:\\Users\\x\\ws.dsl: dynamic \x7b" LogFile.missing
    ⟨"msg".data, "5".data, "C".data, "\\Users\\x\\ws.dsl: dynamic \x7b".data⟩ (by decide)⟩

end StructurizrDsl
